import Mathlib

/-!
Shallow embedding of `src/static/js/main.js` (browser status-sync client
for a copy-trading dashboard), restricted to the real-time core: the
status classifier, the four resource refreshers, the polling scheduler
entry point, and the WebSocket live channel.

Modelling conventions:
* A `fetch(...).then(r => r.json()).then(data => ...).catch(...)` chain is
  split into (a) the request a refresher issues and (b) a pure function
  applying one response outcome to the view state.  `FetchOutcome`
  distinguishes transport failure, JSON-parse failure (both land in the
  JS `.catch`) and a parsed body.
* A parsed JSON body is modelled as a record of the fields the handler
  reads; a field that may be absent in the JS object is an `Option`
  (absent = `none` = JS `undefined`).  JS truthiness tests such as
  `if (data.success)` become `Bool` tests via `truthy`.
* DOM elements that `querySelector` / `getElementById` may fail to find
  are `Option` values in the view records; writing `textContent` /
  `className` replaces the corresponding strings.
* Timer delays keep the host unit (milliseconds): `setInterval(..., 10000)`
  and `setTimeout(..., 5000)` appear as the literals 10000 and 5000.
-/

/-- JS `String.prototype.toLowerCase`, character-wise lowercasing (the
tokens compared in main.js are all ASCII). -/
def toLowerCase (s : String) : String := ⟨s.data.map Char.toLower⟩

/-- JS truthiness of a possibly-absent boolean field: only a present
`true` is truthy (`undefined` and `false` are falsy). -/
def truthy : Option Bool → Bool
  | some b => b
  | none => false

/-- Rendering of a possibly-absent string field when interpolated or
assigned to `textContent`: JS stringifies `undefined` to "undefined". -/
def jsStr : Option String → String
  | some s => s
  | none => "undefined"

/-- Outcome of one `fetch().then(r => r.json())` round trip.
`transportError` = the fetch promise rejected, `parseError` = the body was
not valid JSON (`r.json()` rejected); both reach the JS `.catch`.
`ok` carries the parsed body. -/
inductive FetchOutcome (α : Type) where
  | transportError : FetchOutcome α
  | parseError : FetchOutcome α
  | ok : α → FetchOutcome α
deriving DecidableEq, Repr

/-- `getStatusClass` from main.js lines 175-183: lower-case the token and
match it against the fixed table, defaulting to "secondary". -/
def getStatusClass (status : String) : String :=
  match toLowerCase status with
  | "executed" => "success"
  | "pending" => "warning"
  | "failed" => "danger"
  | "cancelled" => "secondary"
  | _ => "secondary"

/-- Body of `/api/trade_status/{id}`: the handler reads `data.success`
(truthiness) and `data.status`. -/
structure TradeStatusResp where
  success : Option Bool
  status : Option String
deriving DecidableEq, Repr

/-- One `.trade-row` from the view: its `data-trade-id` attribute and its
`.status-badge` child (textContent, className), if present. -/
structure TradeRowView where
  tradeId : Option String
  badge : Option (String × String)
deriving DecidableEq, Repr

/-- URLs fetched by `updateTradeStatus` (lines 49-69): one request per
row that carries a `data-trade-id`; rows without the attribute are
skipped. -/
def updateTradeStatusRequests (rows : List TradeRowView) : List String :=
  rows.filterMap (fun r => r.tradeId.map (fun t => "/api/trade_status/" ++ t))

/-- Response-application half of `updateTradeStatus` for one row.
Only `data.success` truthy writes; the badge is written only if the
`.status-badge` element exists.  If `data.status` is absent, JS throws
inside the `.then` (undefined.toLowerCase) and the rejection is swallowed
by the `.catch`, so nothing is written.  Transport/parse failures hit the
`.catch` (console.log only): no write. -/
def updateTradeStatusRow (o : FetchOutcome TradeStatusResp) (row : TradeRowView) : TradeRowView :=
  match o with
  | .ok d =>
    if truthy d.success then
      match d.status with
      | some st =>
        match row.badge with
        | some _ =>
          { row with badge := some (st, "badge status-badge bg-" ++ getStatusClass st) }
        | none => row
      | none => row
    else row
  | _ => row

/-- Body of `/api/account_balance/{type}/{id}`: the handler reads
`data.success` and `data.balance`.  The numeric balance is modelled as an
integer number of cents; only its formatted rendering reaches the view. -/
structure BalanceResp where
  success : Option Bool
  balance : Option Int
deriving DecidableEq, Repr

/-- One `.account-balance` element: its two data attributes and its
current textContent. -/
structure BalanceView where
  accountId : Option String
  accountType : Option String
  text : String
deriving DecidableEq, Repr

/-- `toFixed(2)` on a balance modelled in cents. -/
def toFixed2 (cents : Int) : String :=
  let sign := if cents < 0 then "-" else ""
  let a := cents.natAbs
  sign ++ toString (a / 100) ++ "." ++
    (if a % 100 < 10 then "0" else "") ++ toString (a % 100)

/-- URLs fetched by `updateAccountBalances` (lines 71-89): one request per
element carrying both `data-account-type` and `data-account-id`. -/
def updateAccountBalancesRequests (elts : List BalanceView) : List String :=
  elts.filterMap (fun e =>
    match e.accountId, e.accountType with
    | some i, some t => some ("/api/account_balance/" ++ t ++ "/" ++ i)
    | _, _ => none)

/-- Response-application half of `updateAccountBalances` for one element.
Only `data.success` truthy writes `$` + `balance.toFixed(2)`.  An absent
`balance` makes `.toFixed` throw inside the `.then`; the rejection is
swallowed by the `.catch`, so no write.  Transport/parse failures hit the
`.catch` (console.log only): no write. -/
def updateAccountBalanceElt (o : FetchOutcome BalanceResp) (e : BalanceView) : BalanceView :=
  match o with
  | .ok d =>
    if truthy d.success then
      match d.balance with
      | some b => { e with text := "$" ++ toFixed2 b }
      | none => e
    else e
  | _ => e

/-- A status badge element (`textContent`, `className`). -/
structure StatusElem where
  text : String
  cls : String
deriving DecidableEq, Repr

/-- A description element (`textContent`). -/
structure DescElem where
  text : String
deriving DecidableEq, Repr

/-- The pair of singleton elements a singleton refresher writes
(`copier-status`/`copier-description`, or `api-status`/`api-description`);
`getElementById` may return null for either. -/
structure SingletonView where
  statusEl : Option StatusElem
  descEl : Option DescElem
deriving DecidableEq, Repr

/-- Body of `/api/copier_status`: the handler reads only `data.running`
(truthiness). -/
structure CopierResp where
  running : Option Bool
deriving DecidableEq, Repr

/-- `updateCopierStatus` (lines 91-122), response-application half.
Both elements must exist or nothing is written (also on the failure
path).  `data.running` truthy → Running/bg-success, otherwise
Stopped/bg-danger; transport/parse failure → Error/bg-warning. -/
def updateCopierStatus (o : FetchOutcome CopierResp) (v : SingletonView) : SingletonView :=
  match o with
  | .ok d =>
    match v.statusEl, v.descEl with
    | some _, some _ =>
      if truthy d.running then
        { statusEl := some ⟨"Running", "badge bg-success me-2"⟩,
          descEl := some ⟨"Monitoring master accounts for new trades"⟩ }
      else
        { statusEl := some ⟨"Stopped", "badge bg-danger me-2"⟩,
          descEl := some ⟨"Trade copying service is not running"⟩ }
    | _, _ => v
  | _ =>
    match v.statusEl, v.descEl with
    | some _, some _ =>
      { statusEl := some ⟨"Error", "badge bg-warning me-2"⟩,
        descEl := some ⟨"Unable to check service status"⟩ }
    | _, _ => v

/-- Body of `/api/connections_status`: the handler reads `data.status`
and `data.message`. -/
structure ConnResp where
  status : Option String
  message : Option String
deriving DecidableEq, Repr

/-- `updateApiStatus` (lines 124-173), response-application half.
Both elements must exist or nothing is written.  The switch on
`data.status` recognises five categories; the `error` case writes the
fixed description "Unable to check API connections" instead of
`data.message`; an unrecognised (or absent) status matches no case and
writes nothing.  Transport/parse failure → Error/bg-warning with the same
fixed description. -/
def updateApiStatus (o : FetchOutcome ConnResp) (v : SingletonView) : SingletonView :=
  match o with
  | .ok d =>
    match v.statusEl, v.descEl with
    | some _, some _ =>
      match d.status with
      | some "all_connected" =>
        { statusEl := some ⟨"Connected", "badge bg-success me-2"⟩,
          descEl := some ⟨jsStr d.message⟩ }
      | some "partial_connected" =>
        { statusEl := some ⟨"Partial", "badge bg-warning me-2"⟩,
          descEl := some ⟨jsStr d.message⟩ }
      | some "none_connected" =>
        { statusEl := some ⟨"Disconnected", "badge bg-danger me-2"⟩,
          descEl := some ⟨jsStr d.message⟩ }
      | some "no_accounts" =>
        { statusEl := some ⟨"No Accounts", "badge bg-secondary me-2"⟩,
          descEl := some ⟨jsStr d.message⟩ }
      | some "error" =>
        { statusEl := some ⟨"Error", "badge bg-warning me-2"⟩,
          descEl := some ⟨"Unable to check API connections"⟩ }
      | _ => v
    | _, _ => v
  | _ =>
    match v.statusEl, v.descEl with
    | some _, some _ =>
      { statusEl := some ⟨"Error", "badge bg-warning me-2"⟩,
        descEl := some ⟨"Unable to check API connections"⟩ }
    | _, _ => v

/-- The four dashboard resource kinds refreshed by the scheduler. -/
inductive Kind where
  | tradeStatus
  | accountBalance
  | copierStatus
  | connectionsStatus
deriving DecidableEq, Repr

/-- A repeating timer armed by `setInterval`: its period in host units
(ms) and the kinds its callback refreshes on every tick. -/
structure IntervalTimer where
  period : Nat
  tick : List Kind
deriving DecidableEq, Repr

/-- Scheduler state: the interval timers currently armed and the
refreshes performed synchronously (outside any timer) so far. -/
structure SchedState where
  intervals : List IntervalTimer
  immediate : List Kind
deriving DecidableEq, Repr

/-- Scheduler state before any script runs: no timers, no refreshes. -/
def schedInit : SchedState := { intervals := [], immediate := [] }

/-- The kinds refreshed by each tick of the interval armed in
`startRealTimeUpdates` (lines 37-42): all four, in source order. -/
def tickKinds : List Kind :=
  [.tradeStatus, .accountBalance, .copierStatus, .connectionsStatus]

/-- `startRealTimeUpdates` (lines 36-47): arms one `setInterval` at
10000 ms whose callback refreshes all four kinds, then immediately
refreshes the two singleton kinds.  There is no guard: every call arms a
fresh interval. -/
def startRealTimeUpdates (s : SchedState) : SchedState :=
  { intervals := s.intervals ++ [⟨10000, tickKinds⟩],
    immediate := s.immediate ++ [.copierStatus, .connectionsStatus] }

/-- The DOMContentLoaded hook (lines 29-32): `startRealTimeUpdates` is
invoked exactly once, and only when the path is "/". -/
def onPageLoad (path : String) (s : SchedState) : SchedState :=
  if path = "/" then startRealTimeUpdates s else s

/-- A notification produced via `showAlert(type, message)`: the severity
argument and the interpolated text. -/
structure AlertEntry where
  severity : String
  message : String
deriving DecidableEq, Repr

/-- The alert CSS class chosen inside `showAlert` (line 206):
severity "error" renders as the "danger" alert class, every other
severity is used as-is. -/
def showAlertClass (severity : String) : String :=
  "alert alert-" ++ (if severity = "error" then "danger" else severity) ++
    " alert-dismissible fade show"

/-- Fields of a parsed WebSocket message body that
`handleWebSocketMessage` reads; each may be absent from the JS object. -/
structure WsMsg where
  type : Option String
  symbol : Option String
  side : Option String
  followers : Option String
  error : Option String
deriving DecidableEq, Repr

/-- `handleWebSocketMessage` (lines 251-265): dispatch on `data.type`.
The three known types each call `showAlert` exactly once with templated
text; any other type only logs (no notification). -/
def handleWebSocketMessage (data : WsMsg) : List AlertEntry :=
  match data.type with
  | some "new_trade" =>
    [⟨"info", "New trade detected: " ++ jsStr data.symbol ++ " " ++ jsStr data.side⟩]
  | some "trade_copied" =>
    [⟨"success", "Trade copied to " ++ jsStr data.followers ++ " followers"⟩]
  | some "trade_failed" =>
    [⟨"error", "Trade copy failed: " ++ jsStr data.error⟩]
  | _ => []

/-- `ws.onmessage` (lines 234-237): `JSON.parse(event.data)` with no
try/catch — an unparseable body (`none`) makes the handler throw, the
exception escaping to the host; a parsed body is dispatched.  The result
is the list of notifications shown, or the escaped exception. -/
def onMessage (parsed : Option WsMsg) : Except Unit (List AlertEntry) :=
  match parsed with
  | none => .error ()
  | some d => .ok (handleWebSocketMessage d)

/-- An action a WebSocket handler can schedule with `setTimeout`:
currently only re-running `initWebSocket`. -/
inductive WsAction where
  | reconnect
deriving DecidableEq, Repr

/-- `ws.onclose` (lines 239-243): schedules exactly one
`setTimeout(initWebSocket, 5000)`. -/
def onCloseScheduled : List (Nat × WsAction) := [(5000, .reconnect)]

/-- `ws.onerror` (lines 245-247): logs only, schedules nothing. -/
def onErrorScheduled : List (Nat × WsAction) := []

/-- Live-channel state for the reconnection loop: whether a socket
exists whose close event has not yet fired, and how many
`setTimeout(initWebSocket, ...)` timers are pending. -/
structure ChannelState where
  socketLive : Bool
  pendingReconnects : Nat
deriving DecidableEq, Repr

/-- State right after the first `initWebSocket` call (lines 223-249):
one socket with handlers installed, no pending reconnect timer. -/
def channelInit : ChannelState := { socketLive := true, pendingReconnects := 0 }

/-- Host-event transitions of the live channel.  A close event fires at
most once per socket (browser contract) and runs `ws.onclose`, adding the
one timer of `onCloseScheduled`; an error event runs `ws.onerror`, adding
nothing; a pending timer firing consumes itself and re-runs
`initWebSocket`, creating a new socket. -/
inductive ChStep : ChannelState → ChannelState → Prop where
  | close (s : ChannelState) (h : s.socketLive = true) :
      ChStep s { socketLive := false,
                 pendingReconnects := s.pendingReconnects + onCloseScheduled.length }
  | error (s : ChannelState) :
      ChStep s { socketLive := s.socketLive,
                 pendingReconnects := s.pendingReconnects + onErrorScheduled.length }
  | fire (s : ChannelState) (h : 0 < s.pendingReconnects) :
      ChStep s { socketLive := true, pendingReconnects := s.pendingReconnects - 1 }

/-- Channel states reachable from `channelInit` by host events. -/
def ChReachable (s : ChannelState) : Prop :=
  Relation.ReflTransGen ChStep channelInit s

/-- The one-timer invariant: there is never more than one pending
reconnect timer, and a pending timer and a live socket never coexist. -/
def chInv (s : ChannelState) : Prop :=
  s.pendingReconnects ≤ 1 ∧ (s.socketLive = true → s.pendingReconnects = 0)

/-- A trade-status refresh attempt counts as failed when the fetch or the
JSON parse rejected, or the body's `success` field is false or absent. -/
def tradeRefreshFailed : FetchOutcome TradeStatusResp → Bool
  | .ok d => !(truthy d.success)
  | _ => true

/-- A balance refresh attempt counts as failed when the fetch or the
JSON parse rejected, or the body's `success` field is false or absent. -/
def balanceRefreshFailed : FetchOutcome BalanceResp → Bool
  | .ok d => !(truthy d.success)
  | _ => true

/-- C1: `getStatusClass` is a total pure function on strings (it is a
Lean function, hence total, never raising, never mutating); matching is
case-insensitive — any two tokens with the same lowercasing classify
alike — and the lowered token maps executed→success, pending→warning,
failed→danger, cancelled→secondary, with every other string mapping to
secondary. -/
theorem getStatusClass_spec :
    (∀ s t : String, toLowerCase s = toLowerCase t →
      getStatusClass s = getStatusClass t) ∧
    (∀ s : String, toLowerCase s = "executed" → getStatusClass s = "success") ∧
    (∀ s : String, toLowerCase s = "pending" → getStatusClass s = "warning") ∧
    (∀ s : String, toLowerCase s = "failed" → getStatusClass s = "danger") ∧
    (∀ s : String, toLowerCase s = "cancelled" → getStatusClass s = "secondary") ∧
    (∀ s : String, toLowerCase s ≠ "executed" → toLowerCase s ≠ "pending" →
      toLowerCase s ≠ "failed" → toLowerCase s ≠ "cancelled" →
      getStatusClass s = "secondary") := by
  refine ⟨?_, ?_, ?_, ?_, ?_, ?_⟩
  · intro s t h
    unfold getStatusClass
    rw [h]
  · intro s h
    unfold getStatusClass
    rw [h]
    rfl
  · intro s h
    unfold getStatusClass
    rw [h]
    rfl
  · intro s h
    unfold getStatusClass
    rw [h]
    rfl
  · intro s h
    unfold getStatusClass
    rw [h]
    rfl
  · intro s h1 h2 h3 h4
    unfold getStatusClass
    split <;> simp_all

/-- Witness for C1 at concrete tokens, including the documented
`classify("Pending") == classify("PENDING")` instance. -/
theorem getStatusClass_spec_witness :
    getStatusClass "Pending" = getStatusClass "PENDING" ∧
    getStatusClass "executed" = "success" ∧
    getStatusClass "Pending" = "warning" ∧
    getStatusClass "FAILED" = "danger" ∧
    getStatusClass "cancelled" = "secondary" ∧
    getStatusClass "whatever" = "secondary" :=
  ⟨getStatusClass_spec.1 "Pending" "PENDING" (by decide),
   getStatusClass_spec.2.1 "executed" (by decide),
   getStatusClass_spec.2.2.1 "Pending" (by decide),
   getStatusClass_spec.2.2.2.1 "FAILED" (by decide),
   getStatusClass_spec.2.2.2.2.1 "cancelled" (by decide),
   getStatusClass_spec.2.2.2.2.2 "whatever" (by decide) (by decide) (by decide)
     (by decide)⟩

/-- C2: a per-item refresh attempt that fails (transport failure, parse
failure, or `success` false/absent) leaves the target's view unchanged,
for trade rows and balance elements alike; consequently any sequence of
failed attempts leaves the view equal to its value before the first. -/
theorem failed_refresh_view_unchanged :
    (∀ (o : FetchOutcome TradeStatusResp) (row : TradeRowView),
      tradeRefreshFailed o = true → updateTradeStatusRow o row = row) ∧
    (∀ (o : FetchOutcome BalanceResp) (e : BalanceView),
      balanceRefreshFailed o = true → updateAccountBalanceElt o e = e) ∧
    (∀ (os : List (FetchOutcome TradeStatusResp)) (row : TradeRowView),
      (∀ o ∈ os, tradeRefreshFailed o = true) →
      os.foldl (fun r o => updateTradeStatusRow o r) row = row) ∧
    (∀ (os : List (FetchOutcome BalanceResp)) (e : BalanceView),
      (∀ o ∈ os, balanceRefreshFailed o = true) →
      os.foldl (fun x o => updateAccountBalanceElt o x) e = e) := by
  have ht : ∀ (o : FetchOutcome TradeStatusResp) (row : TradeRowView),
      tradeRefreshFailed o = true → updateTradeStatusRow o row = row := by
    intro o row h
    cases o with
    | transportError => rfl
    | parseError => rfl
    | ok d =>
      simp only [tradeRefreshFailed, Bool.not_eq_true'] at h
      simp [updateTradeStatusRow, h]
  have hb : ∀ (o : FetchOutcome BalanceResp) (e : BalanceView),
      balanceRefreshFailed o = true → updateAccountBalanceElt o e = e := by
    intro o e h
    cases o with
    | transportError => rfl
    | parseError => rfl
    | ok d =>
      simp only [balanceRefreshFailed, Bool.not_eq_true'] at h
      simp [updateAccountBalanceElt, h]
  refine ⟨ht, hb, ?_, ?_⟩
  · intro os
    induction os with
    | nil => intro row _; rfl
    | cons o os ih =>
      intro row h
      simp only [List.foldl_cons]
      rw [ht o row (h o (List.mem_cons_self o os))]
      exact ih row (fun x hx => h x (List.mem_cons_of_mem o hx))
  · intro os
    induction os with
    | nil => intro e _; rfl
    | cons o os ih =>
      intro e h
      simp only [List.foldl_cons]
      rw [hb o e (h o (List.mem_cons_self o os))]
      exact ih e (fun x hx => h x (List.mem_cons_of_mem o hx))

/-- Witness for C2: three concrete failed attempts (transport failure,
parse failure, `success:false`) leave a concrete trade row and a concrete
balance element unchanged. -/
theorem failed_refresh_view_unchanged_witness :
    ([FetchOutcome.transportError, FetchOutcome.parseError,
        FetchOutcome.ok ⟨some false, some "executed"⟩].foldl
      (fun r o => updateTradeStatusRow o r) ⟨some "T2", some ("pending", "badge status-badge bg-warning")⟩ =
      ⟨some "T2", some ("pending", "badge status-badge bg-warning")⟩) ∧
    ([FetchOutcome.transportError, FetchOutcome.parseError,
        FetchOutcome.ok ⟨none, some 100⟩].foldl
      (fun x o => updateAccountBalanceElt o x) ⟨some "A1", some "master", "$1.00"⟩ =
      ⟨some "A1", some "master", "$1.00"⟩) :=
  ⟨failed_refresh_view_unchanged.2.2.1 _ _ (by decide),
   failed_refresh_view_unchanged.2.2.2 _ _ (by decide)⟩

/-- Counterexample for C3 as stated: a well-formed response with status
"error" and message "2 of 3 accounts connected" does not put the message
into the description element verbatim — the code writes the fixed text
"Unable to check API connections" instead. -/
theorem updateApiStatus_error_not_verbatim :
    (updateApiStatus (.ok ⟨some "error", some "2 of 3 accounts connected"⟩)
        ⟨some ⟨"", ""⟩, some ⟨""⟩⟩).descEl =
      some ⟨"Unable to check API connections"⟩ ∧
    (⟨"Unable to check API connections"⟩ : DescElem) ≠
      ⟨"2 of 3 accounts connected"⟩ := by
  constructor
  · rfl
  · decide

/-- C3 (amended): for the four non-error categories the connections
refresh writes the paired label/severity and the response's message
verbatim; for the "error" category it writes Error/warning and the
fixed description "Unable to check API connections" (not the message). -/
theorem updateApiStatus_display_table :
    ∀ (st : StatusElem) (de : DescElem) (msg : String),
      (updateApiStatus (.ok ⟨some "all_connected", some msg⟩) ⟨some st, some de⟩ =
        ⟨some ⟨"Connected", "badge bg-success me-2"⟩, some ⟨msg⟩⟩) ∧
      (updateApiStatus (.ok ⟨some "partial_connected", some msg⟩) ⟨some st, some de⟩ =
        ⟨some ⟨"Partial", "badge bg-warning me-2"⟩, some ⟨msg⟩⟩) ∧
      (updateApiStatus (.ok ⟨some "none_connected", some msg⟩) ⟨some st, some de⟩ =
        ⟨some ⟨"Disconnected", "badge bg-danger me-2"⟩, some ⟨msg⟩⟩) ∧
      (updateApiStatus (.ok ⟨some "no_accounts", some msg⟩) ⟨some st, some de⟩ =
        ⟨some ⟨"No Accounts", "badge bg-secondary me-2"⟩, some ⟨msg⟩⟩) ∧
      (updateApiStatus (.ok ⟨some "error", some msg⟩) ⟨some st, some de⟩ =
        ⟨some ⟨"Error", "badge bg-warning me-2"⟩,
          some ⟨"Unable to check API connections"⟩⟩) := by
  intro st de msg
  exact ⟨rfl, rfl, rfl, rfl, rfl⟩

/-- C4: with both singleton elements present, a parsed copier response
with `running:true` displays Running/success, `running:false` displays
Stopped/danger, and a failed request (transport or parse) displays
Error/warning; the three displayed (text, class) pairs are pairwise
distinct. -/
theorem updateCopierStatus_outcomes :
    ∀ (st : StatusElem) (de : DescElem),
      (updateCopierStatus (.ok ⟨some true⟩) ⟨some st, some de⟩ =
        ⟨some ⟨"Running", "badge bg-success me-2"⟩,
          some ⟨"Monitoring master accounts for new trades"⟩⟩) ∧
      (updateCopierStatus (.ok ⟨some false⟩) ⟨some st, some de⟩ =
        ⟨some ⟨"Stopped", "badge bg-danger me-2"⟩,
          some ⟨"Trade copying service is not running"⟩⟩) ∧
      (updateCopierStatus .transportError ⟨some st, some de⟩ =
        ⟨some ⟨"Error", "badge bg-warning me-2"⟩,
          some ⟨"Unable to check service status"⟩⟩) ∧
      (updateCopierStatus .parseError ⟨some st, some de⟩ =
        ⟨some ⟨"Error", "badge bg-warning me-2"⟩,
          some ⟨"Unable to check service status"⟩⟩) ∧
      ((⟨"Running", "badge bg-success me-2"⟩ : StatusElem) ≠
        ⟨"Stopped", "badge bg-danger me-2"⟩) ∧
      ((⟨"Running", "badge bg-success me-2"⟩ : StatusElem) ≠
        ⟨"Error", "badge bg-warning me-2"⟩) ∧
      ((⟨"Stopped", "badge bg-danger me-2"⟩ : StatusElem) ≠
        ⟨"Error", "badge bg-warning me-2"⟩) := by
  intro st de
  exact ⟨rfl, rfl, rfl, rfl, by decide, by decide, by decide⟩

/-- Counterexample for C5 as stated: a copier response whose `running`
field is absent (a logical failure) is displayed as Stopped, not as an
explicit Error; and a connections response with no `status` field leaves
the view untouched rather than presenting Error. -/
theorem singleton_logical_failure_no_error :
    (updateCopierStatus (.ok ⟨none⟩) ⟨some ⟨"", ""⟩, some ⟨""⟩⟩).statusEl =
      some ⟨"Stopped", "badge bg-danger me-2"⟩ ∧
    ((⟨"Stopped", "badge bg-danger me-2"⟩ : StatusElem).text ≠ "Error") ∧
    updateApiStatus (.ok ⟨none, none⟩) ⟨some ⟨"x", "y"⟩, some ⟨"z"⟩⟩ =
      ⟨some ⟨"x", "y"⟩, some ⟨"z"⟩⟩ := by
  refine ⟨rfl, by decide, rfl⟩

/-- C5 (amended): the singleton refreshers present an explicit Error
category exactly on transport/parse failure; a copier response lacking
the `running` field is treated as not running (Stopped/danger), and a
connections response lacking the `status` field leaves the view
unchanged. -/
theorem singleton_failure_display :
    ∀ (st : StatusElem) (de : DescElem) (m : Option String),
      ((updateCopierStatus .transportError ⟨some st, some de⟩).statusEl =
        some ⟨"Error", "badge bg-warning me-2"⟩) ∧
      ((updateCopierStatus .parseError ⟨some st, some de⟩).statusEl =
        some ⟨"Error", "badge bg-warning me-2"⟩) ∧
      ((updateApiStatus .transportError ⟨some st, some de⟩).statusEl =
        some ⟨"Error", "badge bg-warning me-2"⟩) ∧
      ((updateApiStatus .parseError ⟨some st, some de⟩).statusEl =
        some ⟨"Error", "badge bg-warning me-2"⟩) ∧
      ((updateCopierStatus (.ok ⟨none⟩) ⟨some st, some de⟩).statusEl =
        some ⟨"Stopped", "badge bg-danger me-2"⟩) ∧
      (updateApiStatus (.ok ⟨none, m⟩) ⟨some st, some de⟩ = ⟨some st, some de⟩) := by
  intro st de m
  exact ⟨rfl, rfl, rfl, rfl, rfl, rfl⟩

/-- C10: a singleton refresher writes its status and description
elements together or not at all — on every outcome, if either element is
missing from the view the refresher performs no write whatsoever,
including the failure-path Error display. -/
theorem singleton_write_both_or_nothing :
    ∀ (oc : FetchOutcome CopierResp) (oa : FetchOutcome ConnResp)
      (v : SingletonView),
      v.statusEl = none ∨ v.descEl = none →
      updateCopierStatus oc v = v ∧ updateApiStatus oa v = v := by
  intro oc oa v h
  obtain ⟨a, b⟩ := v
  constructor
  · cases oc <;> cases a <;> cases b <;> simp_all [updateCopierStatus]
  · cases oa <;> cases a <;> cases b <;> simp_all [updateApiStatus]

/-- Witness for C10: with the status element missing, neither the copier
nor the connections refresher writes anything, even on transport
failure. -/
theorem singleton_write_both_or_nothing_witness :
    updateCopierStatus .transportError ⟨none, some ⟨"old"⟩⟩ = ⟨none, some ⟨"old"⟩⟩ ∧
    updateApiStatus .transportError ⟨none, some ⟨"old"⟩⟩ = ⟨none, some ⟨"old"⟩⟩ :=
  singleton_write_both_or_nothing .transportError .transportError
    ⟨none, some ⟨"old"⟩⟩ (Or.inl rfl)

/-- One `ChStep` preserves the one-timer invariant `chInv`. -/
theorem chStep_preserves_inv :
    ∀ s s' : ChannelState, chInv s → ChStep s s' → chInv s' := by
  intro s s' hs h
  cases h with
  | close h1 =>
    have hp := hs.2 h1
    refine ⟨?_, ?_⟩
    · show s.pendingReconnects + onCloseScheduled.length ≤ 1
      simp [onCloseScheduled, hp]
    · intro hfalse
      simp at hfalse
  | error =>
    refine ⟨?_, ?_⟩
    · show s.pendingReconnects + onErrorScheduled.length ≤ 1
      simpa [onErrorScheduled] using hs.1
    · intro hlive
      show s.pendingReconnects + onErrorScheduled.length = 0
      simpa [onErrorScheduled] using hs.2 hlive
  | fire h1 =>
    have hone : s.pendingReconnects = 1 := Nat.le_antisymm hs.1 h1
    refine ⟨?_, ?_⟩
    · show s.pendingReconnects - 1 ≤ 1
      omega
    · intro _
      show s.pendingReconnects - 1 = 0
      omega

/-- Every reachable channel state satisfies `chInv`. -/
theorem chReachable_inv : ∀ s : ChannelState, ChReachable s → chInv s := by
  intro s h
  have h' : Relation.ReflTransGen ChStep channelInit s := h
  clear h
  induction h' with
  | refl => exact ⟨by simp [channelInit], fun _ => by simp [channelInit]⟩
  | tail hab hbc ih => exact chStep_preserves_inv _ _ ih hbc

/-- C6: a close event schedules exactly one reconnect attempt, at the
fixed 5000 ms delay; an error event schedules none; and along every
sequence of host events from the initial connection there is never more
than one pending reconnection timer. -/
theorem liveChannel_reconnect_policy :
    onCloseScheduled = [(5000, WsAction.reconnect)] ∧
    onErrorScheduled = [] ∧
    (∀ s : ChannelState, ChReachable s → s.pendingReconnects ≤ 1) := by
  refine ⟨rfl, rfl, ?_⟩
  intro s h
  exact (chReachable_inv s h).1

/-- Witness for C6: the state reached by one close event from the
initial connection has exactly one pending timer, within the bound. -/
theorem liveChannel_reconnect_policy_witness :
    (⟨false, 1⟩ : ChannelState).pendingReconnects ≤ 1 :=
  liveChannel_reconnect_policy.2.2 ⟨false, 1⟩
    (Relation.ReflTransGen.single (ChStep.close channelInit rfl))

/-- Counterexample for C7 as stated: a live-channel message whose body
fails to parse as JSON makes `ws.onmessage` raise (the `JSON.parse`
exception escapes the handler — there is no try/catch), contradicting
"the handling is non-fatal (never raises)". -/
theorem onMessage_unparseable_raises : onMessage none = Except.error () := rfl

/-- C7 (amended): an unparseable message body raises out of the handler
and creates no notification; a parsed message whose type is absent or
not one of the three known types is handled without raising and creates
no notification; each known type creates exactly one notification with
the documented severity and text templated from the payload fields. -/
theorem liveMessage_dispatch :
    ∀ (sym sd fol er : Option String) (t : String),
      onMessage none = Except.error () ∧
      onMessage (some ⟨none, sym, sd, fol, er⟩) = Except.ok [] ∧
      (t ≠ "new_trade" → t ≠ "trade_copied" → t ≠ "trade_failed" →
        onMessage (some ⟨some t, sym, sd, fol, er⟩) = Except.ok []) ∧
      onMessage (some ⟨some "new_trade", sym, sd, fol, er⟩) =
        Except.ok [⟨"info", "New trade detected: " ++ jsStr sym ++ " " ++ jsStr sd⟩] ∧
      onMessage (some ⟨some "trade_copied", sym, sd, fol, er⟩) =
        Except.ok [⟨"success", "Trade copied to " ++ jsStr fol ++ " followers"⟩] ∧
      onMessage (some ⟨some "trade_failed", sym, sd, fol, er⟩) =
        Except.ok [⟨"error", "Trade copy failed: " ++ jsStr er⟩] := by
  intro sym sd fol er t
  refine ⟨rfl, rfl, ?_, rfl, rfl, rfl⟩
  intro h1 h2 h3
  simp only [onMessage, handleWebSocketMessage]
  split <;> simp_all

/-- Witness for C7 at a concrete unknown type: the message is dropped
without a notification. -/
theorem liveMessage_dispatch_witness :
    onMessage (some ⟨some "heartbeat", none, none, none, none⟩) = Except.ok [] :=
  (liveMessage_dispatch none none none none "heartbeat").2.2.1
    (by decide) (by decide) (by decide)

/-- Counterexample for C8 as stated: two calls to `startRealTimeUpdates`
arm two repeating interval timers — there is no re-entrancy guard. -/
theorem start_twice_two_timers :
    (startRealTimeUpdates (startRealTimeUpdates schedInit)).intervals.length = 2 ∧
    ¬ ((startRealTimeUpdates (startRealTimeUpdates schedInit)).intervals.length ≤ 1) := by
  decide

/-- C8 (amended): each call to `startRealTimeUpdates` arms exactly one
additional repeating timer (so n calls arm n competing timers); at most
one poll timer exists in the shipped page only because the page-load
hook invokes it at most once. -/
theorem start_timer_accounting :
    (∀ s : SchedState,
      (startRealTimeUpdates s).intervals.length = s.intervals.length + 1) ∧
    (∀ path : String, (onPageLoad path schedInit).intervals.length ≤ 1) := by
  constructor
  · intro s
    simp [startRealTimeUpdates]
  · intro path
    unfold onPageLoad
    split <;> simp [startRealTimeUpdates, schedInit]

/-- C9: `startRealTimeUpdates` immediately refreshes exactly the two
singleton kinds once (copier then connections), arms exactly one
repeating timer with fixed period 10000 ms whose every tick refreshes
all four resource kinds, and the per-item refreshers issue zero requests
when no corresponding view element exists. -/
theorem start_schedule_spec :
    (startRealTimeUpdates schedInit).immediate =
      [Kind.copierStatus, Kind.connectionsStatus] ∧
    (startRealTimeUpdates schedInit).intervals = [⟨10000, tickKinds⟩] ∧
    tickKinds =
      [Kind.tradeStatus, Kind.accountBalance, Kind.copierStatus,
        Kind.connectionsStatus] ∧
    updateTradeStatusRequests [] = [] ∧
    updateAccountBalancesRequests [] = [] :=
  ⟨rfl, rfl, rfl, rfl, rfl⟩
